import Mathlib

/-!
Shallow embedding of the chart component in `Charting.framerfx/code/Charting.tsx`
and its two parallel variants (`unnamed/part_000`, `unnamed/part_001`).

Modelling conventions:
* JS numbers that hold integral counts are `ℤ` (negative inputs matter for the
  `Array(n)` failure mode); fractional JS numbers (opacity, stroke width,
  `Math.random()` draws) are `ℚ`.
* `Date.now()` is a parameter `now : ℤ` (milliseconds), constant during one
  synchronous call, and `Math.random()` is a supplied stream of rationals,
  indexed per series and per point in call order.
* A thrown JS exception is `none` of an `Option` result.
* The external color utilities (`Color`, `Color.toHexString`) are out of scope
  collaborators; the projection is parametric in `toHex : String → String`
  standing for `d => Color.toHexString(Color(d))`.
* The three optional caller callbacks are opaque `Option Unit` values threaded
  through untouched.
-/

/-- Chart variant enumeration, from `enum ChartTypes` (string-valued in TS). -/
inductive ChartTypes
  | line
  | area
  | bar
  | heatmap
  | radar
deriving DecidableEq

/-- String value of a `ChartTypes` member, as TS stores it. -/
def ChartTypes.val : ChartTypes → String
  | .line => "line"
  | .area => "area"
  | .bar => "bar"
  | .heatmap => "heatmap"
  | .radar => "radar"

/-- The `strokeCurve` union type `"smooth" | "straight" | "stepline"`. -/
inductive StrokeCurve
  | smooth
  | straight
  | stepline
deriving DecidableEq

/-- String value of a `StrokeCurve` member. -/
def StrokeCurve.val : StrokeCurve → String
  | .smooth => "smooth"
  | .straight => "straight"
  | .stepline => "stepline"

/-- The `fillType` union type `"solid" | "gradient" | "pattern"`. -/
inductive FillType
  | solid
  | gradient
  | pattern
deriving DecidableEq

/-- String value of a `FillType` member. -/
def FillType.val : FillType → String
  | .solid => "solid"
  | .gradient => "gradient"
  | .pattern => "pattern"

/-- The component's `Props` record; field defaults are `Charting.defaultProps`. -/
structure ChartConfig where
  width : ℚ := 800
  height : ℚ := 600
  points : ℤ := 5
  seriesCount : ℤ := 1
  chartType : ChartTypes := .area
  showToolbar : Bool := true
  showLegend : Bool := true
  showXaxis : Bool := true
  showYaxis : Bool := false
  isStacked : Bool := false
  isHorizontal : Bool := false
  colors : List String := []
  palette : String := "palette1"
  showStroke : Bool := true
  stroke : ℚ := 5
  strokeCurve : StrokeCurve := .smooth
  fillType : FillType := .gradient
  fillOpacity : ℚ := 8 / 10
  onDataPointSelection : Option Unit := none
  onDataPointMouseEnter : Option Unit := none
  onDataPointMouseLeave : Option Unit := none
deriving DecidableEq

/-! ## Sample series generator (`makeSeries` / `genDateValue`) -/

/-- JS `x | 0` (ToInt32): truncation toward zero, then wrap into
`[-2^31, 2^31)`. -/
def jsOrZero (q : ℚ) : ℤ :=
  (((if q < 0 then -⌊-q⌋ else ⌊q⌋) + 2 ^ 31) % 2 ^ 32) - 2 ^ 31

/-- One generated point, the object literal inside `genDateValue`:
`date` is milliseconds since the epoch, `value` the sampled integer. -/
structure DateValue where
  date : ℤ
  value : ℤ
deriving DecidableEq

/-- One series of the generated set: `{ data: [[date, value], ...] }`. -/
structure Series where
  data : List (ℤ × ℤ)
deriving DecidableEq

/-- JS `Array#map` over a callback that can throw: the first exception
(`none`) aborts the whole map. -/
def mapExc (f : α → Option β) : List α → Option (List β)
  | [] => some []
  | a :: l =>
    match f a with
    | none => none
    | some b => (mapExc f l).map (fun bs => b :: bs)

/-- Embeds `genDateValue(n)`: `Array(n)` throws on a negative length;
otherwise point `i` gets `Date.now() - i * 3600000` and
`Math.max(250, (Math.random() * 3000) | 0)`, with `rand i` the draw
consumed by point `i`. -/
def genDateValue (now : ℤ) (rand : ℕ → ℚ) (n : ℤ) : Option (List DateValue) :=
  if n < 0 then none
  else
    some ((List.range n.toNat).map (fun (i : ℕ) =>
      { date := now - i * 3600000
        value := max 250 (jsOrZero (rand i * 3000)) }))

/-- Embeds `makeSeries(seriesCount, points)`: `Array(seriesCount)` throws on a
negative length; otherwise series `s` is `{ data: genDateValue(points).map(v
=> [v.date, v.value]) }`, with `rand s` the random stream consumed by series
`s`. -/
def makeSeries (now : ℤ) (rand : ℕ → ℕ → ℚ) (seriesCount points : ℤ) :
    Option (List Series) :=
  if seriesCount < 0 then none
  else
    mapExc (fun s =>
        (genDateValue now (rand s) points).map (fun l =>
          ({ data := l.map (fun v => (v.date, v.value)) } : Series)))
      (List.range seriesCount.toNat)

/-- Transcription of `makeSeries` from the `unnamed/part_000` variant, which
is textually identical to the one in `Charting.tsx`. -/
def makeSeriesV0 (now : ℤ) (rand : ℕ → ℕ → ℚ) (seriesCount points : ℤ) :
    Option (List Series) :=
  if seriesCount < 0 then none
  else
    mapExc (fun s =>
        (genDateValue now (rand s) points).map (fun l =>
          ({ data := l.map (fun v => (v.date, v.value)) } : Series)))
      (List.range seriesCount.toNat)

/-! ## The regex `/rgba?\(.*\d\)/` and color resolution -/

/-- Characters the JS regex `.` matches: everything but a line terminator. -/
def jsDotMatches (c : Char) : Bool :=
  c ≠ '\n' && c ≠ '\r' && c ≠ Char.ofNat 0x2028 && c ≠ Char.ofNat 0x2029

/-- Greedy match of the regex tail `.*\d\)` against a whole character list:
the longest split `middle ++ d :: ')' :: rest` with `middle` all
dot-matchable and `d` a digit; returns the consumed prefix
`middle ++ [d, ')']`. -/
def dotStarDigitParen (l : List Char) : Option (List Char) :=
  (List.range (l.length - 1)).reverse.findSome? (fun k =>
    match l.get? k, l.get? (k + 1) with
    | some c, some c2 =>
      if c.isDigit && c2 = ')' && (l.take k).all jsDotMatches then
        some (l.take (k + 2))
      else none
    | _, _ => none)

/-- Match of `rgba?\(.*\d\)` anchored at the head of the list, with the
regex engine's backtracking on the optional `a`. -/
def matchAtHead : List Char → Option (List Char)
  | 'r' :: 'g' :: 'b' :: rest =>
    (match rest with
      | 'a' :: '(' :: rest2 =>
        (dotStarDigitParen rest2).map
          (fun m => 'r' :: 'g' :: 'b' :: 'a' :: '(' :: m)
      | _ => none) <|>
    (match rest with
      | '(' :: rest2 =>
        (dotStarDigitParen rest2).map (fun m => 'r' :: 'g' :: 'b' :: '(' :: m)
      | _ => none)
  | _ => none

/-- Leftmost match of `rgba?\(.*\d\)` anywhere in the list. -/
def scanMatch : List Char → Option (List Char)
  | [] => none
  | c :: rest => matchAtHead (c :: rest) <|> scanMatch rest

/-- Embeds `item.match(/rgba?\(.*\d\)/)` followed by `.pop()`: the regex has
no capture groups, so a successful match array pops to the full match, and a
failed match is `null`, on which `.pop()` throws (`none`). -/
def jsMatchPop (s : String) : Option String :=
  (scanMatch s.data).map (fun l => String.mk l)

/-- Character-list form of `String#startsWith` (first argument is the sought
prefix). -/
def charsStartWith : List Char → List Char → Bool
  | [], _ => true
  | _ :: _, [] => false
  | p :: ps, c :: cs => p = c && charsStartWith ps cs

/-- Embeds the first `.map` callback over `colors`: a `var(...)` item is
replaced by `item.match(/rgba?\(.*\d\)/).pop()` (throwing when the regex has
no match); any other item passes through. -/
def resolveItem (item : String) : Option String :=
  if charsStartWith "var(".data item.data then jsMatchPop item
  else some item

/-- Embeds the `colors:` ternary of the options literal: when
`colors.length > 0 && palette == "custom"`, resolve every item and normalize
each through the external color utilities (`toHex`); otherwise the field is
`undefined` (inner `none`). The outer `Option` is exception propagation. -/
def resolveColors (toHex : String → String) (colors : List String)
    (palette : String) : Option (Option (List String)) :=
  if 0 < colors.length ∧ palette = "custom" then
    (mapExc resolveItem colors).map (fun l => some (l.map toHex))
  else some none

/-! ## The options object (`RenderOptions`) -/

/-- The `toolbar` sub-object. -/
structure ToolbarOpts where
  show' : Bool
deriving DecidableEq

/-- The `chart.events` sub-object; `mounted` is the internal bookkeeping
closure (always present), the other three are the pass-through callbacks. -/
structure EventsOpts where
  mounted : Unit
  dataPointSelection : Option Unit
  dataPointMouseEnter : Option Unit
  dataPointMouseLeave : Option Unit
deriving DecidableEq

/-- The `chart` sub-object. -/
structure ChartOpts where
  id : String
  type : ChartTypes
  stacked : Bool
  toolbar : ToolbarOpts
  events : EventsOpts
deriving DecidableEq

/-- The `plotOptions.bar` sub-object. -/
structure BarOpts where
  horizontal : Bool
deriving DecidableEq

/-- The `plotOptions` sub-object. -/
structure PlotOptions where
  bar : BarOpts
deriving DecidableEq

/-- The `fill` sub-object. -/
structure FillOpts where
  opacity : ℚ
  type : FillType
deriving DecidableEq

/-- The `stroke` sub-object. -/
structure StrokeOpts where
  show' : Bool
  curve : StrokeCurve
  width : ℚ
deriving DecidableEq

/-- The `xaxis.labels` sub-object. -/
structure LabelsOpts where
  show' : Bool
deriving DecidableEq

/-- The `xaxis` sub-object. -/
structure XaxisOpts where
  type : String
  labels : LabelsOpts
deriving DecidableEq

/-- The `yaxis` sub-object. -/
structure YaxisOpts where
  show' : Bool
deriving DecidableEq

/-- The `dataLabels` sub-object. -/
structure DataLabelsOpts where
  enabled : Bool
deriving DecidableEq

/-- The `noData` sub-object. -/
structure NoDataOpts where
  text : String
deriving DecidableEq

/-- The `legend` sub-object. -/
structure LegendOpts where
  show' : Bool
deriving DecidableEq

/-- The `theme` sub-object. -/
structure ThemeOpts where
  palette : String
deriving DecidableEq

/-- The nested options object handed to the external renderer; `colors` is
`none` when the field is `undefined`. -/
structure RenderOptions where
  colors : Option (List String)
  theme : ThemeOpts
  chart : ChartOpts
  plotOptions : PlotOptions
  fill : FillOpts
  stroke : StrokeOpts
  xaxis : XaxisOpts
  yaxis : YaxisOpts
  dataLabels : DataLabelsOpts
  noData : NoDataOpts
  legend : LegendOpts
deriving DecidableEq

/-- Embeds the `options` literal of `Charting.tsx` (and `unnamed/part_001`):
the `colors:` ternary is evaluated first and its exception aborts the whole
literal; every other field is placed from the destructured props. -/
def project (toHex : String → String) (cfg : ChartConfig) :
    Option RenderOptions :=
  (resolveColors toHex cfg.colors cfg.palette).map (fun cs =>
    { colors := cs
      theme := { palette := cfg.palette }
      chart :=
        { id := "dogchart"
          type := cfg.chartType
          stacked := cfg.isStacked
          toolbar := { show' := cfg.showToolbar }
          events :=
            { mounted := ()
              dataPointSelection := cfg.onDataPointSelection
              dataPointMouseEnter := cfg.onDataPointMouseEnter
              dataPointMouseLeave := cfg.onDataPointMouseLeave } }
      plotOptions := { bar := { horizontal := cfg.isHorizontal } }
      fill := { opacity := cfg.fillOpacity, type := cfg.fillType }
      stroke :=
        { show' := cfg.showStroke
          curve := cfg.strokeCurve
          width := cfg.stroke }
      xaxis := { type := "datetime", labels := { show' := cfg.showXaxis } }
      yaxis := { show' := cfg.showYaxis }
      dataLabels := { enabled := false }
      noData := { text := "No Data" }
      legend := { show' := cfg.showLegend } })

/-- One render pass of the component body: the options projection and the
series state initialised by `makeSeries(seriesCount, points)`. -/
def renderData (toHex : String → String) (cfg : ChartConfig) (now : ℤ)
    (rand : ℕ → ℕ → ℚ) : Option RenderOptions × Option (List Series) :=
  (project toHex cfg, makeSeries now rand cfg.seriesCount cfg.points)

/-! ## Property-control visibility predicates (`addPropertyControls`) -/

/-- The `hidden` predicate of the `isHorizontal` control:
`props.chartType != ChartTypes.Bar`. -/
def hiddenIsHorizontal (props : ChartConfig) : Bool :=
  props.chartType != ChartTypes.bar

/-- The `hidden` predicate of the `fillOpacity` control:
`props.fillType != "solid"`. -/
def hiddenFillOpacity (props : ChartConfig) : Bool :=
  props.fillType != FillType.solid

/-- The `hidden` predicate of the `stroke` (width) control:
`props.showStroke == false`. -/
def hiddenStrokeWidth (props : ChartConfig) : Bool :=
  props.showStroke == false

/-- The `hidden` predicate of the `colors` control:
`props.palette != "custom"`. -/
def hiddenColors (props : ChartConfig) : Bool :=
  props.palette != "custom"

/-! ## Untyped object view, for comparing the two variants -/

/-- JS values as needed for the options objects of the two variants; functions
are structurally opaque (`vfn`). -/
inductive JsVal where
  | vstr : String → JsVal
  | vbool : Bool → JsVal
  | vnum : ℚ → JsVal
  | vfn : JsVal
  | vundef : JsVal
  | varr : List JsVal → JsVal
  | vobj : List (String × JsVal) → JsVal

/-- An optional callback prop as a JS value: `undefined` when absent. -/
def jsOfCallback : Option Unit → JsVal
  | none => .vundef
  | some _ => .vfn

/-- The options literal of the `unnamed/part_001` variant (identical to
`Charting.tsx`) rendered as an untyped JS object. -/
def optionsJsonV1 (toHex : String → String) (cfg : ChartConfig) :
    Option JsVal :=
  (resolveColors toHex cfg.colors cfg.palette).map (fun cs =>
    .vobj
      [("colors",
          match cs with
          | none => JsVal.vundef
          | some l => JsVal.varr (l.map JsVal.vstr)),
        ("theme", .vobj [("palette", .vstr cfg.palette)]),
        ("chart", .vobj
          [("id", .vstr "dogchart"),
            ("type", .vstr cfg.chartType.val),
            ("stacked", .vbool cfg.isStacked),
            ("toolbar", .vobj [("show", .vbool cfg.showToolbar)]),
            ("events", .vobj
              [("mounted", .vfn),
                ("dataPointSelection", jsOfCallback cfg.onDataPointSelection),
                ("dataPointMouseEnter", jsOfCallback cfg.onDataPointMouseEnter),
                ("dataPointMouseLeave",
                  jsOfCallback cfg.onDataPointMouseLeave)])]),
        ("plotOptions",
          .vobj [("bar", .vobj [("horizontal", .vbool cfg.isHorizontal)])]),
        ("fill", .vobj
          [("opacity", .vnum cfg.fillOpacity),
            ("type", .vstr cfg.fillType.val)]),
        ("stroke", .vobj
          [("show", .vbool cfg.showStroke),
            ("curve", .vstr cfg.strokeCurve.val),
            ("width", .vnum cfg.stroke)]),
        ("xaxis", .vobj
          [("type", .vstr "datetime"),
            ("labels", .vobj [("show", .vbool cfg.showXaxis)])]),
        ("yaxis", .vobj [("show", .vbool cfg.showYaxis)]),
        ("dataLabels", .vobj [("enabled", .vbool false)]),
        ("noData", .vobj [("text", .vstr "No Data")]),
        ("legend", .vobj [("show", .vbool cfg.showLegend)])])

/-- The options object of the `unnamed/part_000` variant:
`const options = {}`. -/
def optionsJsonV0 : JsVal := .vobj []

/-- Removes the color/customization part of an options object: the `colors`
and `theme` keys. -/
def stripColorKeys : JsVal → JsVal
  | .vobj l => .vobj (l.filter (fun kv => kv.1 != "colors" && kv.1 != "theme"))
  | v => v

/-! ## Helper lemmas -/

/-- The pure value of `makeSeries` on non-negative counts, once every
`Array` construction is known to succeed. -/
def seriesPure (now : ℤ) (rand : ℕ → ℕ → ℚ) (sc pc : ℕ) : List Series :=
  (List.range sc).map (fun s =>
    { data := (List.range pc).map (fun (i : ℕ) =>
        ((now - i * 3600000 : ℤ), max 250 (jsOrZero (rand s i * 3000)))) })

lemma mapExc_some (g : α → β) : ∀ l : List α,
    mapExc (fun a => some (g a)) l = some (l.map g)
  | [] => rfl
  | a :: l => by
    simp [mapExc, mapExc_some g l]

lemma jsOrZero_eq_floor (q : ℚ) (h0 : 0 ≤ q) (h1 : q < 2 ^ 31) :
    jsOrZero q = ⌊q⌋ := by
  rw [jsOrZero, if_neg (not_lt.mpr h0)]
  have hf0 : (0 : ℤ) ≤ ⌊q⌋ := Int.floor_nonneg.mpr h0
  have hf1 : ⌊q⌋ < 2 ^ 31 := by
    have := Int.floor_le_floor h1.le
    have h2 : ⌊q⌋ < ((2 : ℤ) ^ 31 : ℤ) := by
      rw [Int.floor_lt]
      exact_mod_cast h1
    exact h2
  rw [Int.emod_eq_of_lt (by omega) (by omega)]
  omega

lemma genDateValue_natCast (now : ℤ) (r : ℕ → ℚ) (pc : ℕ) :
    genDateValue now r (pc : ℤ) =
      some ((List.range pc).map (fun (i : ℕ) =>
        ({ date := now - i * 3600000
           value := max 250 (jsOrZero (r i * 3000)) } : DateValue))) := by
  rw [genDateValue, if_neg (by omega), Int.toNat_natCast]

lemma makeSeries_natCast (now : ℤ) (rand : ℕ → ℕ → ℚ) (sc pc : ℕ) :
    makeSeries now rand (sc : ℤ) (pc : ℤ) = some (seriesPure now rand sc pc) := by
  rw [makeSeries, if_neg (by omega), Int.toNat_natCast]
  have h : (fun s => (genDateValue now (rand s) (pc : ℤ)).map (fun l =>
      ({ data := l.map (fun v => (v.date, v.value)) } : Series))) =
      fun s => some ({ data := (List.range pc).map (fun (i : ℕ) =>
        ((now - i * 3600000 : ℤ),
          max 250 (jsOrZero (rand s i * 3000)))) } : Series) := by
    funext s
    rw [genDateValue_natCast]
    simp [List.map_map, Function.comp]
  rw [h, mapExc_some]
  rfl

/-! ## Claims about the sample series generator -/

/-- C1: for every non-negative `seriesCount` and `pointCount`,
`makeSeries(seriesCount, pointCount)` returns (without failing) exactly
`seriesCount` series, each with exactly `pointCount` points; in particular
`makeSeries(0, n)` returns the empty series set and `makeSeries(n, 0)`
returns `n` series each with an empty point list. -/
theorem makeSeries_shape (now : ℤ) (rand : ℕ → ℕ → ℚ) (sc pc : ℕ) :
    (∃ l, makeSeries now rand (sc : ℤ) (pc : ℤ) = some l ∧ l.length = sc ∧
      ∀ s ∈ l, s.data.length = pc) ∧
    makeSeries now rand 0 (pc : ℤ) = some [] ∧
    (∃ l, makeSeries now rand (sc : ℤ) 0 = some l ∧ l.length = sc ∧
      ∀ s ∈ l, s.data = []) := by
  refine ⟨⟨seriesPure now rand sc pc, makeSeries_natCast now rand sc pc, ?_, ?_⟩,
    ?_, ⟨seriesPure now rand sc 0, ?_, ?_, ?_⟩⟩
  · simp [seriesPure]
  · intro s hs
    simp only [seriesPure, List.mem_map] at hs
    obtain ⟨i, _, rfl⟩ := hs
    simp
  · have h := makeSeries_natCast now rand 0 pc
    simpa [seriesPure] using h
  · have h := makeSeries_natCast now rand sc 0
    simpa using h
  · simp [seriesPure]
  · intro s hs
    simp only [seriesPure, List.mem_map] at hs
    obtain ⟨i, _, rfl⟩ := hs
    simp

/-- Witness for C1 at `seriesCount = 2`, `pointCount = 3`. -/
theorem makeSeries_shape_witness :
    (∃ l, makeSeries 7 (fun _ _ => 0) ((2 : ℕ) : ℤ) ((3 : ℕ) : ℤ) = some l ∧
      l.length = 2 ∧ ∀ s ∈ l, s.data.length = 3) ∧
    makeSeries 7 (fun _ _ => 0) 0 ((3 : ℕ) : ℤ) = some [] ∧
    (∃ l, makeSeries 7 (fun _ _ => 0) ((2 : ℕ) : ℤ) 0 = some l ∧
      l.length = 2 ∧ ∀ s ∈ l, s.data = []) :=
  makeSeries_shape 7 (fun _ _ => 0) 2 3

/-- C2: in every returned series, the point at index `i` carries timestamp
`now - i` hours (in milliseconds), so timestamps are strictly decreasing,
each exactly one hour before the previous. -/
theorem makeSeries_timestamps (now : ℤ) (rand : ℕ → ℕ → ℚ) (sc pc : ℕ)
    (l : List Series) (hl : makeSeries now rand (sc : ℤ) (pc : ℤ) = some l) :
    ∀ s ∈ l,
      (∀ i (h : i < s.data.length),
        (s.data.get ⟨i, h⟩).1 = now - i * 3600000) ∧
      (∀ i (h : i + 1 < s.data.length),
        (s.data.get ⟨i + 1, h⟩).1 = (s.data.get ⟨i, by omega⟩).1 - 3600000 ∧
        (s.data.get ⟨i + 1, h⟩).1 < (s.data.get ⟨i, by omega⟩).1) := by
  rw [makeSeries_natCast now rand sc pc] at hl
  obtain rfl : seriesPure now rand sc pc = l := by injection hl
  intro s hs
  simp only [seriesPure, List.mem_map] at hs
  obtain ⟨j, _, rfl⟩ := hs
  constructor
  · intro i h
    simp [List.get_eq_getElem]
  · intro i h
    simp only [List.get_eq_getElem, List.getElem_map, List.getElem_range]
    refine ⟨by push_cast; ring, ?_⟩
    have : ((i : ℤ) + 1) * 3600000 = i * 3600000 + 3600000 := by ring
    push_cast
    omega

/-- Witness for C2 at one series of three points. -/
theorem makeSeries_timestamps_witness :
    makeSeries 7 (fun _ _ => 0) ((1 : ℕ) : ℤ) ((3 : ℕ) : ℤ) =
      some (seriesPure 7 (fun _ _ => 0) 1 3) ∧
    ∀ s ∈ seriesPure 7 (fun _ _ => 0) 1 3,
      (∀ i (h : i < s.data.length),
        (s.data.get ⟨i, h⟩).1 = 7 - i * 3600000) ∧
      (∀ i (h : i + 1 < s.data.length),
        (s.data.get ⟨i + 1, h⟩).1 = (s.data.get ⟨i, by omega⟩).1 - 3600000 ∧
        (s.data.get ⟨i + 1, h⟩).1 < (s.data.get ⟨i, by omega⟩).1) :=
  ⟨makeSeries_natCast 7 (fun _ _ => 0) 1 3,
    makeSeries_timestamps 7 (fun _ _ => 0) 1 3
      (seriesPure 7 (fun _ _ => 0) 1 3)
      (makeSeries_natCast 7 (fun _ _ => 0) 1 3)⟩

/-- C3: with every random draw in `[0, 1)`, every value of every point of
every returned series lies in `[250, 3000)`. -/
theorem makeSeries_value_range (now : ℤ) (rand : ℕ → ℕ → ℚ) (sc pc : ℕ)
    (hrand : ∀ s i, 0 ≤ rand s i ∧ rand s i < 1)
    (l : List Series) (hl : makeSeries now rand (sc : ℤ) (pc : ℤ) = some l) :
    ∀ s ∈ l, ∀ p ∈ s.data, 250 ≤ p.2 ∧ p.2 < 3000 := by
  rw [makeSeries_natCast now rand sc pc] at hl
  obtain rfl : seriesPure now rand sc pc = l := by injection hl
  intro s hs p hp
  simp only [seriesPure, List.mem_map] at hs
  obtain ⟨j, _, rfl⟩ := hs
  simp only [List.mem_map, List.mem_range] at hp
  obtain ⟨i, _, rfl⟩ := hp
  obtain ⟨hq0, hq1⟩ := hrand j i
  have h0 : (0 : ℚ) ≤ rand j i * 3000 := by positivity
  have h1 : rand j i * 3000 < 3000 := by nlinarith
  have hfloor : jsOrZero (rand j i * 3000) = ⌊rand j i * 3000⌋ :=
    jsOrZero_eq_floor _ h0 (by nlinarith)
  have hlt : ⌊rand j i * 3000⌋ < 3000 := by
    rw [Int.floor_lt]
    exact_mod_cast h1
  constructor
  · exact le_max_left _ _
  · simp only [hfloor]
    exact max_lt (by norm_num) hlt

/-- Witness for C3 with the constant draw `1/2`. -/
theorem makeSeries_value_range_witness :
    (∀ s i, 0 ≤ (fun (_ _ : ℕ) => (1 : ℚ) / 2) s i ∧
      (fun (_ _ : ℕ) => (1 : ℚ) / 2) s i < 1) ∧
    ∀ s ∈ seriesPure 7 (fun _ _ => (1 : ℚ) / 2) 1 2,
      ∀ p ∈ s.data, 250 ≤ p.2 ∧ p.2 < 3000 :=
  ⟨fun _ _ => by norm_num,
    makeSeries_value_range 7 (fun _ _ => (1 : ℚ) / 2) 1 2
      (fun _ _ => by norm_num)
      (seriesPure 7 (fun _ _ => (1 : ℚ) / 2) 1 2)
      (makeSeries_natCast 7 (fun _ _ => (1 : ℚ) / 2) 1 2)⟩

/-! ## Claims about the options projection -/

/-- The options object the default props project to (with the external
normalizer taken as the identity). -/
def optsDefault : RenderOptions :=
  { colors := none
    theme := { palette := "palette1" }
    chart :=
      { id := "dogchart"
        type := .area
        stacked := false
        toolbar := { show' := true }
        events :=
          { mounted := ()
            dataPointSelection := none
            dataPointMouseEnter := none
            dataPointMouseLeave := none } }
    plotOptions := { bar := { horizontal := false } }
    fill := { opacity := 8 / 10, type := .gradient }
    stroke := { show' := true, curve := .smooth, width := 5 }
    xaxis := { type := "datetime", labels := { show' := true } }
    yaxis := { show' := false }
    dataLabels := { enabled := false }
    noData := { text := "No Data" }
    legend := { show' := true } }

/-- C4: whenever the projection returns an options object, that object
carries a resolved color list exactly when `palette == "custom"` and
`colors` is non-empty; and for every other configuration the projection
succeeds with the `colors` field `undefined`. -/
theorem project_colors_presence (toHex : String → String) (cfg : ChartConfig) :
    (∀ opts, project toHex cfg = some opts →
      (opts.colors ≠ none ↔ cfg.palette = "custom" ∧ cfg.colors ≠ [])) ∧
    ((cfg.palette ≠ "custom" ∨ cfg.colors = []) →
      ∃ opts, project toHex cfg = some opts ∧ opts.colors = none) := by
  by_cases hcond : 0 < cfg.colors.length ∧ cfg.palette = "custom"
  · constructor
    · intro opts h
      rw [project, resolveColors, if_pos hcond, Option.map_map] at h
      obtain ⟨cs, _, rfl⟩ := Option.map_eq_some'.mp h
      simp only [Function.comp]
      constructor
      · intro _
        exact ⟨hcond.2, List.length_pos.mp hcond.1⟩
      · intro _
        simp
    · intro h
      rcases h with h | h
      · exact absurd hcond.2 h
      · rw [h] at hcond
        simp at hcond
  · constructor
    · intro opts h
      rw [project, resolveColors, if_neg hcond] at h
      obtain ⟨cs, hcs, rfl⟩ := Option.map_eq_some'.mp h
      obtain rfl : (none : Option (List String)) = cs := by injection hcs
      simp only [ne_eq, not_true_eq_false, false_iff, not_and]
      intro hpal hcol
      exact hcond ⟨List.length_pos.mpr hcol, hpal⟩
    · intro _
      rw [project, resolveColors, if_neg hcond]
      exact ⟨_, rfl, rfl⟩

/-- Witness for C4: the default configuration (palette `"palette1"`, no
custom colors) projects with `colors` undefined. -/
theorem project_colors_presence_witness :
    ∃ opts, project (fun s => s) ({} : ChartConfig) = some opts ∧
      opts.colors = none :=
  (project_colors_presence (fun s => s) {}).2 (Or.inr rfl)

/-- C5 evaluation: a color entry beginning with `var(` whose content has no
embedded `rgba?(...digit)` syntax makes the resolution step throw
(`match` returns `null` and `.pop()` faults), and the whole projection
throws with it, instead of passing the original string through. -/
theorem resolveItem_malformed_var :
    resolveItem "var(--token-abc)" = none ∧
    project (fun s => s)
      { palette := "custom", colors := ["var(--token-abc)"] } = none := by
  constructor
  · decide
  · rfl

/-- C6: whenever the projection returns an options object, every structural
field is placed from the configuration without transformation: variant,
stacking, toolbar/legend/y-axis/x-axis-label visibility, orientation, fill
opacity and style, stroke visibility/curve/width, the fixed `"datetime"`
x-axis type, permanently disabled data labels, the fixed `"No Data"`
placeholder, and the verbatim theme palette. -/
theorem project_field_placement (toHex : String → String) (cfg : ChartConfig)
    (opts : RenderOptions) (h : project toHex cfg = some opts) :
    opts.chart.type = cfg.chartType ∧
    opts.chart.stacked = cfg.isStacked ∧
    opts.chart.toolbar.show' = cfg.showToolbar ∧
    opts.legend.show' = cfg.showLegend ∧
    opts.yaxis.show' = cfg.showYaxis ∧
    opts.xaxis.labels.show' = cfg.showXaxis ∧
    opts.plotOptions.bar.horizontal = cfg.isHorizontal ∧
    opts.fill.opacity = cfg.fillOpacity ∧
    opts.fill.type = cfg.fillType ∧
    opts.stroke.show' = cfg.showStroke ∧
    opts.stroke.curve = cfg.strokeCurve ∧
    opts.stroke.width = cfg.stroke ∧
    opts.xaxis.type = "datetime" ∧
    opts.dataLabels.enabled = false ∧
    opts.noData.text = "No Data" ∧
    opts.theme.palette = cfg.palette := by
  rw [project] at h
  obtain ⟨cs, _, rfl⟩ := Option.map_eq_some'.mp h
  exact ⟨rfl, rfl, rfl, rfl, rfl, rfl, rfl, rfl, rfl, rfl, rfl, rfl, rfl,
    rfl, rfl, rfl⟩

/-- Witness for C6 at the default configuration. -/
theorem project_field_placement_witness :
    optsDefault.chart.type = ({} : ChartConfig).chartType ∧
    optsDefault.chart.stacked = ({} : ChartConfig).isStacked ∧
    optsDefault.chart.toolbar.show' = ({} : ChartConfig).showToolbar ∧
    optsDefault.legend.show' = ({} : ChartConfig).showLegend ∧
    optsDefault.yaxis.show' = ({} : ChartConfig).showYaxis ∧
    optsDefault.xaxis.labels.show' = ({} : ChartConfig).showXaxis ∧
    optsDefault.plotOptions.bar.horizontal = ({} : ChartConfig).isHorizontal ∧
    optsDefault.fill.opacity = ({} : ChartConfig).fillOpacity ∧
    optsDefault.fill.type = ({} : ChartConfig).fillType ∧
    optsDefault.stroke.show' = ({} : ChartConfig).showStroke ∧
    optsDefault.stroke.curve = ({} : ChartConfig).strokeCurve ∧
    optsDefault.stroke.width = ({} : ChartConfig).stroke ∧
    optsDefault.xaxis.type = "datetime" ∧
    optsDefault.dataLabels.enabled = false ∧
    optsDefault.noData.text = "No Data" ∧
    optsDefault.theme.palette = ({} : ChartConfig).palette :=
  project_field_placement (fun s => s) {} optsDefault rfl

/-- C7: the options half of a render pass is deterministic and total in the
configuration alone: it is unchanged under any change of the clock or of the
random stream, so two passes over an identical configuration yield
structurally identical options. -/
theorem project_deterministic (toHex : String → String) (cfg : ChartConfig)
    (now₁ now₂ : ℤ) (rand₁ rand₂ : ℕ → ℕ → ℚ) :
    (renderData toHex cfg now₁ rand₁).1 = (renderData toHex cfg now₂ rand₂).1 :=
  rfl

/-- C8: each of the four conditional property controls is hidden in the
stated circumstances: orientation for a non-bar variant, fill opacity for a
non-solid fill, stroke width when the stroke is off, and the custom color
list for a non-custom palette. -/
theorem controls_hidden (p : ChartConfig) :
    (p.chartType ≠ ChartTypes.bar → hiddenIsHorizontal p = true) ∧
    (p.fillType ≠ FillType.solid → hiddenFillOpacity p = true) ∧
    (p.showStroke = false → hiddenStrokeWidth p = true) ∧
    (p.palette ≠ "custom" → hiddenColors p = true) := by
  refine ⟨fun h => ?_, fun h => ?_, fun h => ?_, fun h => ?_⟩ <;>
    simp [hiddenIsHorizontal, hiddenFillOpacity, hiddenStrokeWidth,
      hiddenColors, h]

/-- Witness for C8 at a configuration meeting all four circumstances. -/
theorem controls_hidden_witness :
    hiddenIsHorizontal { showStroke := false } = true ∧
    hiddenFillOpacity { showStroke := false } = true ∧
    hiddenStrokeWidth { showStroke := false } = true ∧
    hiddenColors { showStroke := false } = true :=
  ⟨(controls_hidden { showStroke := false }).1 (by decide),
    (controls_hidden { showStroke := false }).2.1 (by decide),
    (controls_hidden { showStroke := false }).2.2.1 rfl,
    (controls_hidden { showStroke := false }).2.2.2 (by decide)⟩

/-! ## Claims comparing the two variants, and negative inputs -/

/-- C9 counterexample: even with the color/customization keys (`colors`,
`theme`) removed, the options object the `part_001` variant derives from the
default configuration is not the empty options object of the `part_000`
variant, so the variants do not derive the same render options. -/
theorem variants_options_differ :
    (optionsJsonV1 (fun s => s) {}).map stripColorKeys ≠ some optionsJsonV0 := by
  simp [optionsJsonV1, optionsJsonV0, resolveColors, stripColorKeys]

/-- C9 amended: the two variants share the series generation verbatim
(`makeSeries` is textually identical in both), but the options projection of
`part_000` is the empty object, omitting the entire structural projection and
not only the color/customization part. -/
theorem variants_amended (now : ℤ) (rand : ℕ → ℕ → ℚ) (sc pts : ℤ) :
    makeSeriesV0 now rand sc pts = makeSeries now rand sc pts ∧
    optionsJsonV0 = JsVal.vobj [] ∧
    (optionsJsonV1 (fun s => s) {}).map stripColorKeys ≠ some optionsJsonV0 := by
  refine ⟨rfl, rfl, ?_⟩
  simp [optionsJsonV1, optionsJsonV0, resolveColors, stripColorKeys]

/-- C10 counterexample: a negative point count does not always make
`makeSeries` fail — with `seriesCount = 0` the per-series generator is never
invoked, and `makeSeries(0, -1)` returns the empty series set. -/
theorem makeSeries_zero_negative :
    makeSeries 0 (fun _ _ => 0) 0 (-1) = some [] := rfl

/-- C10 amended: a negative `seriesCount` always fails; a negative
`pointCount` fails exactly when at least one series is requested; with
`seriesCount = 0` the result is the empty series set whatever `pointCount`
is, and no partial non-empty series set is ever returned for negative
inputs. -/
theorem makeSeries_negative (now : ℤ) (rand : ℕ → ℕ → ℚ) (sc pts : ℤ) :
    (sc < 0 → makeSeries now rand sc pts = none) ∧
    (0 < sc → pts < 0 → makeSeries now rand sc pts = none) ∧
    (sc = 0 → makeSeries now rand sc pts = some []) := by
  refine ⟨fun h => ?_, fun hsc hpts => ?_, fun h => ?_⟩
  · rw [makeSeries, if_pos h]
  · obtain ⟨n, hn⟩ : ∃ n, sc.toNat = n + 1 := ⟨sc.toNat - 1, by omega⟩
    have h0 : genDateValue now (rand 0) pts = none := by
      rw [genDateValue, if_pos hpts]
    rw [makeSeries, if_neg (by omega), hn, List.range_succ_eq_map]
    simp [mapExc, h0]
  · subst h
    rfl

/-- Witness for the amended C10 at the three kinds of input. -/
theorem makeSeries_negative_witness :
    makeSeries 0 (fun _ _ => 0) (-1) 5 = none ∧
    makeSeries 0 (fun _ _ => 0) 2 (-1) = none ∧
    makeSeries 0 (fun _ _ => 0) 0 7 = some [] :=
  ⟨(makeSeries_negative 0 (fun _ _ => 0) (-1) 5).1 (by norm_num),
    (makeSeries_negative 0 (fun _ _ => 0) 2 (-1)).2.1 (by norm_num)
      (by norm_num),
    (makeSeries_negative 0 (fun _ _ => 0) 0 7).2.2 rfl⟩
